import Mathlib

set_option maxHeartbeats 1000000

/-!
Verification of the magma network-client transport layer
(`src/network/clients.c`) and the SMTP protocol-exchange test driver
(`check/magma/servers/smtp/smtp_check_network.c`).

The transport layer is embedded as pure functions over an explicit
`Client` record; results of external collaborator calls (the TLS and TCP
liveness probes, `tls_client_alloc`, the resolver's candidate list, the
allocator) enter as oracle parameters, so each embedded function is a
function of the client state and of the collaborator results, exactly as
the C control flow combines them.  Released resources are logged as
explicit action lists so that ownership and double-release questions
become statements about those lists.
-/

/-- One network client object (`client_t`).  `sockd = -1` is the invalid
descriptor sentinel; `tls` holds the identity of the TLS context when a
secure overlay has been established; `ip` and `buffer` hold the
identities of the heap-allocated peer address and read buffer when those
allocations succeeded. -/
structure Client where
  sockd : Int
  tls : Option Nat
  status : Int
  ip : Option Nat
  buffer : Option Nat
deriving Repr, DecidableEq

/-- Embedding of `client_status` (clients.c lines 15-38).  `tlsProbe` and
`tcpProbe` are the results of the external liveness probes `tls_status`
and `tcp_status`.  The initial `result` assignment of lines 17-21 is dead
code: the if/else-if/else chain of lines 24-34 assigns `result` on every
path, so only that chain is modelled.  A NULL client reaches the final
else branch, which dereferences the null pointer (`client->status = -1`);
that undefined outcome is modelled as `none`. -/
def client_status (client : Option Client) (tlsProbe tcpProbe : Int) :
    Option (Int × Client) :=
  match client with
  | none => none
  | some c =>
    if c.tls.isSome ∧ 0 ≤ c.status ∧ tlsProbe = 0 then some (c.status, c)
    else if c.sockd ≠ -1 ∧ 0 ≤ c.status ∧ tcpProbe = 0 then some (c.status, c)
    else some (-1, { c with status := -1 })

/-- Embedding of `client_secure` (clients.c lines 45-62).  `tlsAlloc` is
the result of the external call `tls_client_alloc(client->sockd)`: `none`
when the TLS context construction fails, `some ctx` when it yields the
context `ctx`. -/
def client_secure (client : Option Client) (tlsAlloc : Option Nat) :
    Int × Option Client :=
  match client with
  | none => (-1, none)
  | some c =>
    if c.tls.isSome then (0, some c)
    else
      match tlsAlloc with
      | none => (-1, some { c with status := -1 })
      | some ctx => (0, some { c with tls := some ctx, status := 1 })

/-- A resource-release action performed by `client_close`. -/
inductive CloseAct where
  | freeTls (ctx : Nat)
  | closeSock (sd : Int)
  | freeIp (addr : Nat)
  | freeBuffer (buf : Nat)
  | freeClient
deriving Repr, DecidableEq

/-- Position of an action in the fixed teardown order of `client_close`:
TLS context, then descriptor, then peer address, then buffer, then the
client record itself. -/
def CloseAct.rank : CloseAct → Nat
  | .freeTls _ => 0
  | .closeSock _ => 1
  | .freeIp _ => 2
  | .freeBuffer _ => 3
  | .freeClient => 4

/-- Embedding of `client_close` (clients.c lines 169-187).  The result is
the list of release actions performed together with the session value
after the call: the C function frees the `client_t` itself, so after a
close the caller's handle no longer denotes a live session (`none`), and
a second call on it is the NULL no-op path.  `tls_free`, `close`,
`mm_cleanup(ip)` and `st_cleanup(buffer)` each run only when the
corresponding resource is present. -/
def client_close : Option Client → List CloseAct × Option Client
  | none => ([], none)
  | some c =>
    ((match c.tls with | some t => [CloseAct.freeTls t] | none => [])
      ++ (if c.sockd ≠ -1 then [CloseAct.closeSock c.sockd] else [])
      ++ (match c.ip with | some a => [CloseAct.freeIp a] | none => [])
      ++ (match c.buffer with | some b => [CloseAct.freeBuffer b] | none => [])
      ++ [CloseAct.freeClient], none)

/-- One candidate address produced by the resolver (`getaddrinfo`), as
seen by the connect loop of `client_connect`: the result of the
`socket()` call for this candidate (`none` on failure, `some sd` when it
creates descriptor `sd`), whether `connect()` on that descriptor
succeeds, and whether the candidate's family/length pair is one of the
two recognized forms (`AF_INET`/`AF_INET6` with matching length). -/
structure Candidate where
  sock : Option Int
  connOk : Bool
  famValid : Bool
deriving Repr, DecidableEq

/-- A resource event performed by `client_connect`. -/
inductive ConnEvent where
  | closeSock (sd : Int)
  | freeAddrInfo
  | freeIp
  | freeClient
deriving Repr, DecidableEq

/-- Outcome of the candidate-iteration loop of `client_connect`
(clients.c lines 97-137): `socket()` failed for some candidate, or a
candidate connected on descriptor `sd`, or every candidate refused, in
which case `sd` is the descriptor created for the last candidate (the
loop has already closed it) and `ret` is nonzero. -/
inductive LoopOut where
  | sockFail (evs : List ConnEvent)
  | connected (sd : Int) (famValid : Bool) (evs : List ConnEvent)
  | exhausted (sd : Int) (evs : List ConnEvent)
deriving Repr, DecidableEq

/-- The candidate-iteration loop of `client_connect`: on a refused
connection the just-created socket is closed and the next candidate is
tried (lines 133-136); on `socket()` failure the function aborts (lines
100-105); on success iteration stops (line 128). -/
def connectLoop : List Candidate → Int → List ConnEvent → LoopOut
  | [], sd, evs => .exhausted sd evs
  | cand :: rest, _, evs =>
    match cand.sock with
    | none => .sockFail evs
    | some sd =>
      if cand.connOk then .connected sd cand.famValid evs
      else connectLoop rest sd (evs ++ [.closeSock sd])

/-- Embedding of `client_connect` (clients.c lines 70-162) from the point
where resolution has succeeded and produced the candidate list (a
successful `getaddrinfo` yields a non-empty list).  `ipAllocOk`,
`clientAllocOk` and `bufferAllocOk` are the outcomes of the external
allocator calls `mm_alloc(sizeof(ip_t))`, `mm_alloc(sizeof(client_t))`
and `st_alloc(8192)`.  The returned event list records every `close`,
`freeaddrinfo`, `mm_free`/`mm_cleanup` and `st_cleanup` in program
order.  Note the exhausted branch: after the loop has already closed the
last candidate's socket (line 135), line 145 closes `sd` again. -/
def client_connect (cands : List Candidate)
    (ipAllocOk clientAllocOk bufferAllocOk : Bool) :
    Option Client × List ConnEvent :=
  match connectLoop cands (-1) [] with
  | .sockFail evs => (none, evs ++ [.freeAddrInfo])
  | .exhausted sd evs => (none, evs ++ [.freeAddrInfo, .closeSock sd])
  | .connected sd famValid evs =>
    let ip : Option Nat := if ipAllocOk ∧ famValid then some 0 else none
    let ipEvs : List ConnEvent :=
      if ipAllocOk ∧ ¬ famValid then [.freeIp] else []
    let evs1 := evs ++ ipEvs ++ [.freeAddrInfo]
    if ¬ clientAllocOk then
      (none, evs1 ++ (match ip with | some _ => [ConnEvent.freeIp] | none => [])
        ++ [.closeSock sd])
    else if ¬ bufferAllocOk then
      (none, evs1 ++ [ConnEvent.freeClient]
        ++ (match ip with | some _ => [ConnEvent.freeIp] | none => [])
        ++ [.closeSock sd])
    else
      (some { sockd := sd, tls := none, status := 1, ip := ip, buffer := some 0 },
        evs1)

/-- Modelled from the spec: one result of a `client_read_line` call
(§4.4, not under src/): the returned byte length (positive on success,
`0` on orderly shutdown, negative on error) and, when positive, the line
it leaves in the session's `current_line` view. -/
structure ReadEvent where
  res : Int
  line : List Char
deriving Repr, DecidableEq

/-- Modelled from the spec: the environment of one SMTP check scenario.
The check driver's collaborators (`client_read_line`, `client_write`,
`client_print`, `client_status`; §4.4 and §4.2, none of which is under
src/) are network-dependent, so their successive results enter the model
as oracle schedules that each call consumes in program order.  `line` is
the session's `current_line` view after the most recent successful
read. -/
structure Sess where
  reads : List ReadEvent
  writes : List Int
  statuses : List Int
  line : List Char
deriving Repr, DecidableEq

/-- Modelled from the spec: `client_read_line` (§4.4) consumes the next
read event; an exhausted schedule reads as an orderly shutdown (result
0).  The `current_line` view is advanced only by a successful read. -/
def client_read_line (s : Sess) : Int × Sess :=
  match s.reads with
  | [] => (0, s)
  | r :: rs =>
    (r.res, { s with reads := rs, line := if 0 < r.res then r.line else s.line })

/-- Modelled from the spec: a `client_write` / `client_print` call (§4.4)
returns the next scheduled byte count; an exhausted schedule reports an
error (-1). -/
def clientWriteOp (s : Sess) : Int × Sess :=
  match s.writes with
  | [] => (-1, s)
  | w :: ws => (w, { s with writes := ws })

/-- Modelled from the spec: a `client_status` call as seen from the check
driver (§4.2).  Its value depends on the external liveness probes, so it
is scheduled as an oracle; an exhausted schedule reports -1. -/
def clientStatusOp (s : Sess) : Int × Sess :=
  match s.statuses with
  | [] => (-1, s)
  | v :: vs => (v, { s with statuses := vs })

/-- Modelled from the spec: `st_cmp_cs_starts` (byte-prefix comparison,
§6) returns 0 exactly when the string starts with the given bytes; the
check driver only ever tests the result against zero. -/
def st_cmp_cs_starts (s pre : List Char) : Int :=
  if s.take pre.length = pre then 0 else 1

/-- Modelled from the spec: `st_search_cs` (substring search, §6)
reports whether the needle occurs contiguously in the string. -/
def st_search_cs : List Char → List Char → Bool
  | [], needle => decide (needle = [])
  | c :: rest, needle =>
    decide ((c :: rest).take needle.length = needle) || st_search_cs rest needle

def esmtpMark : List Char := " ESMTP ".toList

def code220 : List Char := "220".toList

def code221 : List Char := "221".toList

def code235 : List Char := "235".toList

def code250 : List Char := "250".toList

def code334 : List Char := "334".toList

def code354 : List Char := "354".toList

def code550 : List Char := "550".toList

def msgConnect : String := "Failed to connect with the SMTP server."

def msgEhlo : String := "Failed to return successful status after EHLO."

def msgMail : String := "Failed to return successful status after MAIL."

def msgRcpt : String := "Failed to return successful status after RCPT."

def msgData : String := "Failed to return a proceed status code after DATA."

def msgAuthInvalid : String :=
  "Invalid credentials appear to have authenticated when they should have failed."

def msgAuthValid : String :=
  "Failed to authenticate even though we supplied valid credentials."

def msgQuitStatus : String :=
  "Failed to return successful status following the QUIT command."

def msgQuitClose : String :=
  "The server failed to close the connection after issuing a QUIT command."

/-- Loop body of `check_smtp_client_read_end` (smtp_check_network.c
lines 17-23), recursing over the read schedule.  Each positive read
unconditionally inspects byte 3 of the line just read
(`pl_char_get(client->line)[3]`); on a line shorter than 4 bytes that
access is out of bounds, modelled as `none`. -/
def readEndLoop (ws sts : List Int) : List ReadEvent → List Char →
    Option (Bool × Sess)
  | [], ln => some (false, ⟨[], ws, sts, ln⟩)
  | r :: rs, ln =>
    if 0 < r.res then
      match r.line[3]? with
      | none => none
      | some c =>
        if c = ' ' then some (true, ⟨rs, ws, sts, r.line⟩)
        else readEndLoop ws sts rs r.line
    else some (false, ⟨rs, ws, sts, ln⟩)

/-- Embedding of `check_smtp_client_read_end` (smtp_check_network.c
lines 17-23): call `client_read_line` until it fails (result ≤ 0, return
false) or until the line just read has a space as its fourth byte
(return true). -/
def check_smtp_client_read_end (s : Sess) : Option (Bool × Sess) :=
  readEndLoop s.writes s.statuses s.reads s.line

/-- Embedding of `check_smtp_client_mail_rcpt_data` (smtp_check_network.c
lines 34-61).  The expected byte counts are the source's
`ns_length_get("MAIL FROM: <%s>\r\n") + ns_length_get(from) - 2` (namely
`length from + 15`) and `ns_length_get("RCPT TO: <%s>\r\n") +
ns_length_get(to) - 2` (namely `length to + 13`); the DATA command is 6
bytes.  The third component is the message the function prints into the
`errmsg` stringer it was handed on failure (`none` when it succeeds);
whether that stringer is the caller's buffer is the caller's affair.
Each `||` operand is evaluated (and consumes its oracle) only when every
operand before it was false, matching C short-circuit order. -/
def check_smtp_client_mail_rcpt_data (s : Sess) (fromA toA : List Char) :
    Option (Bool × Sess × Option String) :=
  let szFrom : Int := Int.ofNat fromA.length + 15
  let szTo : Int := Int.ofNat toA.length + 13
  let (w1, s1) := clientWriteOp s
  if w1 ≠ szFrom then some (false, s1, some msgMail)
  else match check_smtp_client_read_end s1 with
  | none => none
  | some (ok1, s2) =>
    if ¬ ok1 then some (false, s2, some msgMail)
    else
      let (st1, s3) := clientStatusOp s2
      if st1 ≠ 1 ∨ st_cmp_cs_starts s3.line code250 ≠ 0 then
        some (false, s3, some msgMail)
      else
        let (w2, s4) := clientWriteOp s3
        if w2 ≠ szTo then some (false, s4, some msgRcpt)
        else match check_smtp_client_read_end s4 with
        | none => none
        | some (ok2, s5) =>
          if ¬ ok2 then some (false, s5, some msgRcpt)
          else
            let (st2, s6) := clientStatusOp s5
            if st2 ≠ 1 ∨ st_cmp_cs_starts s6.line code250 ≠ 0 then
              some (false, s6, some msgRcpt)
            else
              let (w3, s7) := clientWriteOp s6
              if w3 ≠ 6 then some (false, s7, some msgData)
              else match check_smtp_client_read_end s7 with
              | none => none
              | some (ok3, s8) =>
                if ¬ ok3 then some (false, s8, some msgData)
                else
                  let (st3, s9) := clientStatusOp s8
                  if st3 ≠ 1 ∨ st_cmp_cs_starts s9.line code354 ≠ 0 then
                    some (false, s9, some msgData)
                  else some (true, s9, none)

/-- Embedding of `check_smtp_client_auth_plain` (smtp_check_network.c
lines 72-81): one `AUTH PLAIN <auth>\r\n` write whose expected count is
`st_length_get(auth) + 13`, a multi-line read, a status check and a
`235` prefix check. -/
def check_smtp_client_auth_plain (s : Sess) (auth : List Char) :
    Option (Bool × Sess) :=
  let (w, s1) := clientWriteOp s
  if w ≠ Int.ofNat auth.length + 13 then some (false, s1)
  else match check_smtp_client_read_end s1 with
  | none => none
  | some (ok, s2) =>
    if ¬ ok then some (false, s2)
    else
      let (st, s3) := clientStatusOp s2
      if st ≠ 1 ∨ st_cmp_cs_starts s3.line code235 ≠ 0 then some (false, s3)
      else some (true, s3)

/-- Embedding of `check_smtp_client_auth_login` (smtp_check_network.c
lines 91-107): the 12-byte `AUTH LOGIN\r\n` write expecting `334`, the
username line (`length user + 2` bytes) expecting `334`, and the
password line (`length pass + 2` bytes) expecting `235`, each followed
by a multi-line read and a status check. -/
def check_smtp_client_auth_login (s : Sess) (user pass : List Char) :
    Option (Bool × Sess) :=
  let (w1, s1) := clientWriteOp s
  if w1 ≠ 12 then some (false, s1)
  else match check_smtp_client_read_end s1 with
  | none => none
  | some (ok1, s2) =>
    if ¬ ok1 then some (false, s2)
    else
      let (st1, s3) := clientStatusOp s2
      if st1 ≠ 1 ∨ st_cmp_cs_starts s3.line code334 ≠ 0 then some (false, s3)
      else
        let (w2, s4) := clientWriteOp s3
        if w2 ≠ Int.ofNat user.length + 2 then some (false, s4)
        else match check_smtp_client_read_end s4 with
        | none => none
        | some (ok2, s5) =>
          if ¬ ok2 then some (false, s5)
          else
            let (st2, s6) := clientStatusOp s5
            if st2 ≠ 1 ∨ st_cmp_cs_starts s6.line code334 ≠ 0 then
              some (false, s6)
            else
              let (w3, s7) := clientWriteOp s6
              if w3 ≠ Int.ofNat pass.length + 2 then some (false, s7)
              else match check_smtp_client_read_end s7 with
              | none => none
              | some (ok3, s8) =>
                if ¬ ok3 then some (false, s8)
                else
                  let (st3, s9) := clientStatusOp s8
                  if st3 ≠ 1 ∨ st_cmp_cs_starts s9.line code235 ≠ 0 then
                    some (false, s9)
                  else some (true, s9)

/-- Embedding of `check_smtp_client_quit` (smtp_check_network.c lines
117-134): write the 6-byte `QUIT\r\n`, read one line (plain
`client_read_line`, not the multi-line reader), require status 1 and a
`221` prefix; then issue one more read and fail only when it returns a
positive count.  The third component is the message printed into the
`errmsg` stringer on failure. -/
def check_smtp_client_quit (s : Sess) : Bool × Sess × Option String :=
  let (w, s1) := clientWriteOp s
  if w ≠ 6 then (false, s1, some msgQuitStatus)
  else
    let (r1, s2) := client_read_line s1
    if r1 ≤ 0 then (false, s2, some msgQuitStatus)
    else
      let (st, s3) := clientStatusOp s2
      if st ≠ 1 ∨ st_cmp_cs_starts s3.line code221 ≠ 0 then
        (false, s3, some msgQuitStatus)
      else
        let (r2, s4) := client_read_line s3
        if 0 < r2 then (false, s4, some msgQuitClose)
        else (true, s4, none)

def credUser : List Char := "bWFnbWE=".toList

def credPassBad : List Char := "aW52YWxpZHBhc3N3b3Jk".toList

def credPassGood : List Char := "cGFzc3dvcmQ=".toList

def credPlainBad : List Char := "bWFnbWEAbWFnbWEAaW52YWxpZHBhc3N3b3Jk".toList

def credPlainGood : List Char := "bWFnbWEAbWFnbWEAcGFzc3dvcmQ=".toList

def addrUnauth : List Char := "ladar@lavabit.com".toList

def addrAuth : List Char := "magma@lavabit.com".toList

def addrTo : List Char := "princess@example.com".toList

/-- Embedding of `check_smtp_network_auth_sthread` (smtp_check_network.c
lines 218-281).  `connectOk` is whether `client_connect` yielded a
session.  The second result component is the content the function leaves
in the caller-supplied `errmsg` buffer on return (`none` when nothing
was written to that buffer).  The first four exchange steps print their
failure message through the still-live `errmsg` pointer; the fifth step
begins with the condition `(errmsg = NULL)`, which nulls the local
pointer, so from that point every `st_sprint(errmsg, ...)` — including
those issued inside `check_smtp_client_mail_rcpt_data` and
`check_smtp_client_quit`, the `if (!errmsg)` one at line 259 and the
`if (st_empty(errmsg))` one at line 268 — targets a NULL stringer and
never reaches the caller's buffer. -/
def check_smtp_network_auth_sthread (connectOk : Bool) (login : Bool)
    (s : Sess) : Option (Bool × Option String) :=
  if ¬ connectOk then some (false, some msgConnect)
  else
    let (r1, s1) := client_read_line s
    if r1 ≤ 0 then some (false, some msgConnect)
    else
      let (st1, s2) := clientStatusOp s1
      if st1 ≠ 1 ∨ st_cmp_cs_starts s2.line code220 ≠ 0 ∨
          ¬ st_search_cs s2.line esmtpMark then
        some (false, some msgConnect)
      else
        let (w1, s3) := clientWriteOp s2
        if w1 ≠ 16 then some (false, some msgEhlo)
        else match check_smtp_client_read_end s3 with
        | none => none
        | some (ok1, s4) =>
          if ¬ ok1 then some (false, some msgEhlo)
          else
            let (st2, s5) := clientStatusOp s4
            if st2 ≠ 1 ∨ st_cmp_cs_starts s5.line code250 ≠ 0 then
              some (false, some msgEhlo)
            else
              match (if login then
                  check_smtp_client_auth_login s5 credUser credPassBad
                else check_smtp_client_auth_plain s5 credPlainBad) with
              | none => none
              | some (authBad, s6) =>
                if authBad then some (false, some msgAuthInvalid)
                else
                  match (if login then
                      check_smtp_client_auth_login s6 credUser credPassGood
                    else check_smtp_client_auth_plain s6 credPlainGood) with
                  | none => none
                  | some (authOk, s7) =>
                    if ¬ authOk then some (false, some msgAuthValid)
                    else
                      match check_smtp_client_mail_rcpt_data s7 addrUnauth
                          addrTo with
                      | none => none
                      | some (m1, s8, _) =>
                        if ¬ m1 then some (false, none)
                        else
                          let (w2, s9) := clientWriteOp s8
                          if w2 ≠ 3 then some (false, none)
                          else match check_smtp_client_read_end s9 with
                          | none => none
                          | some (ok2, s10) =>
                            if ¬ ok2 then some (false, none)
                            else
                              let (st3, s11) := clientStatusOp s10
                              if st3 ≠ 1 ∨
                                  st_cmp_cs_starts s11.line code550 ≠ 0 then
                                some (false, none)
                              else
                                match check_smtp_client_mail_rcpt_data s11
                                    addrAuth addrTo with
                                | none => none
                                | some (m2, s12, _) =>
                                  if ¬ m2 then some (false, none)
                                  else
                                    let (w3, s13) := clientWriteOp s12
                                    if w3 ≠ 3 then some (false, none)
                                    else match check_smtp_client_read_end s13 with
                                    | none => none
                                    | some (ok3, s14) =>
                                      if ¬ ok3 then some (false, none)
                                      else
                                        let (st4, s15) := clientStatusOp s14
                                        if st4 ≠ 1 ∨
                                            st_cmp_cs_starts s15.line code250 ≠ 0 then
                                          some (false, none)
                                        else
                                          let (q, _, _) := check_smtp_client_quit s15
                                          if ¬ q then some (false, none)
                                          else some (true, none)

/-- C7: `client_secure` on a session whose TLS overlay is already
established returns 0 and leaves the entire session — TLS context,
descriptor, status and buffer — unchanged, whatever the external TLS
allocator would have produced. -/
theorem claim7_secure_idempotent (c : Client) (a : Option Nat)
    (h : c.tls.isSome) : client_secure (some c) a = (0, some c) := by
  simp [client_secure, h]

theorem claim7_witness :
    client_secure (some ⟨5, some 3, 1, some 0, some 0⟩) (some 9) =
      (0, some ⟨5, some 3, 1, some 0, some 0⟩) :=
  claim7_secure_idempotent ⟨5, some 3, 1, some 0, some 0⟩ (some 9) (by decide)

/-- C10: `client_status` has no defined result on an absent (NULL)
session — its fallback branch writes through the pointer — while
`client_secure` returns -1 and `client_close` does nothing on an absent
session; and on any present session whose stored status lies in
{-1, 0, 1, 2}, `client_status` is defined and returns a value in
{-1, 0, 1, 2}. -/
theorem claim10_null_session_contract :
    (∀ tp cp : Int, client_status none tp cp = none) ∧
    (∀ a : Option Nat, client_secure none a = (-1, none)) ∧
    client_close none = ([], none) ∧
    (∀ (c : Client) (tp cp : Int),
      c.status = -1 ∨ c.status = 0 ∨ c.status = 1 ∨ c.status = 2 →
      ∃ r c', client_status (some c) tp cp = some (r, c') ∧
        (r = -1 ∨ r = 0 ∨ r = 1 ∨ r = 2)) := by
  refine ⟨fun _ _ => rfl, fun _ => rfl, rfl, ?_⟩
  intro c tp cp h
  by_cases h1 : c.tls.isSome ∧ 0 ≤ c.status ∧ tp = 0
  · exact ⟨c.status, c, by simp [client_status, h1], h⟩
  · by_cases h2 : c.sockd ≠ -1 ∧ 0 ≤ c.status ∧ cp = 0
    · exact ⟨c.status, c, by simp [client_status, h1, h2], h⟩
    · exact ⟨-1, { c with status := -1 }, by simp [client_status, h1, h2],
        Or.inl rfl⟩

theorem claim10_witness :
    ∃ r c', client_status (some ⟨5, none, 1, none, some 0⟩) 0 0 =
      some (r, c') ∧ (r = -1 ∨ r = 0 ∨ r = 1 ∨ r = 2) :=
  claim10_null_session_contract.2.2.2 ⟨5, none, 1, none, some 0⟩ 0 0
    (by decide)

/-- C2 counterexample: a session whose stored status is -1 but whose
descriptor is still open and which has no TLS overlay is brought back to
status 1 by `client_secure` alone (without a fresh connect) whenever the
TLS allocation succeeds, so the claim that no operation other than
connect can return the status to a positive value is false on the
code. -/
theorem claim2_counterexample :
    (⟨5, none, -1, none, some 0⟩ : Client).status = -1 ∧
    client_secure (some ⟨5, none, -1, none, some 0⟩) (some 7) =
      (0, some ⟨5, some 7, 1, none, some 0⟩) := by
  exact ⟨rfl, rfl⟩

/-- C2 amended: once the stored status is -1, `client_status` always
returns -1 and leaves the status at -1, and `client_secure` also leaves
the status at -1 — both on an already-secured session and on a failed
upgrade — except in the single case of a successful fresh TLS
establishment, which forces status to 1 (exactly as §4.3 specifies for a
successful secure upgrade). -/
theorem claim2_amended_status_monotone (c : Client) (tp cp : Int)
    (a : Option Nat) (h : c.status = -1) :
    client_status (some c) tp cp = some (-1, { c with status := -1 }) ∧
    ((client_secure (some c) a).2.map Client.status = some (-1) ∨
      (c.tls = none ∧ ∃ ctx, a = some ctx ∧
        client_secure (some c) a =
          (0, some { c with tls := some ctx, status := 1 }))) := by
  constructor
  · simp [client_status, h]
  · rcases ht : c.tls with _ | t
    · rcases a with _ | ctx
      · left
        simp [client_secure, ht, h]
      · right
        exact ⟨by simp [ht], ctx, rfl, by simp [client_secure, ht]⟩
    · left
      simp [client_secure, ht, h]

theorem claim2_amended_witness :
    client_status (some ⟨5, some 3, -1, none, some 0⟩) 0 0 =
      some (-1, { (⟨5, some 3, -1, none, some 0⟩ : Client) with
        status := -1 }) ∧
    ((client_secure (some ⟨5, some 3, -1, none, some 0⟩) none).2.map
      Client.status = some (-1) ∨
      ((⟨5, some 3, -1, none, some 0⟩ : Client).tls = none ∧
        ∃ ctx, (none : Option Nat) = some ctx ∧
          client_secure (some ⟨5, some 3, -1, none, some 0⟩) none =
            (0, some { (⟨5, some 3, -1, none, some 0⟩ : Client) with
              tls := some ctx, status := 1 }))) :=
  claim2_amended_status_monotone ⟨5, some 3, -1, none, some 0⟩ 0 0 none rfl

/-- C3 counterexample: a session with a TLS overlay, cached status 1 and
an open descriptor, whose TLS probe reports non-zero (closed/error) but
whose TCP probe reports 0, keeps its cached status 1 — `client_status`
falls through to the TCP probe instead of forcing -1, so the claim that
a non-zero TLS probe forces the returned and stored status to -1 is
false on the code. -/
theorem claim3_counterexample :
    client_status (some ⟨5, some 3, 1, none, some 0⟩) 1 0 =
      some (1, ⟨5, some 3, 1, none, some 0⟩) := by
  decide

/-- C3 amended: for a session with a TLS overlay and a non-negative
cached status, a zero TLS probe retains the cached status unchanged; a
non-zero TLS probe does not decide the matter but falls through to the
plain-TCP probe — the cached status is still retained when the
descriptor is open and the TCP probe reports 0, and only otherwise is
the returned and stored status forced to -1. -/
theorem claim3_amended_status_tls (c : Client) (tp cp : Int)
    (h1 : c.tls.isSome) (h2 : 0 ≤ c.status) :
    client_status (some c) tp cp =
      (if tp = 0 then some (c.status, c)
       else if c.sockd ≠ -1 ∧ cp = 0 then some (c.status, c)
       else some (-1, { c with status := -1 })) := by
  simp [client_status, h1, h2]

theorem claim3_amended_witness :
    client_status (some ⟨5, some 3, 1, none, some 0⟩) 1 1 =
      (if (1 : Int) = 0 then some (1, (⟨5, some 3, 1, none, some 0⟩ : Client))
       else if (⟨5, some 3, 1, none, some 0⟩ : Client).sockd ≠ -1 ∧ (1 : Int) = 0
         then some (1, (⟨5, some 3, 1, none, some 0⟩ : Client))
       else some (-1, { (⟨5, some 3, 1, none, some 0⟩ : Client) with
         status := -1 })) :=
  claim3_amended_status_tls ⟨5, some 3, 1, none, some 0⟩ 1 1 (by decide)
    (by decide)

/-- C4: `client_close` on any session — fully initialized, partially
initialized (missing buffer, peer address or TLS context, or an invalid
descriptor) — consumes the session, releases each present resource
exactly once (the action list has no duplicates) in the fixed order TLS
context, descriptor, peer address, buffer, client record, and a second
close on the resulting handle performs no release at all. -/
theorem claim4_close_idempotent_single_release (c : Client) :
    (client_close (some c)).2 = none ∧
    client_close (client_close (some c)).2 = ([], none) ∧
    ((client_close (some c)).1).Nodup ∧
    List.Pairwise (· ≤ ·) (((client_close (some c)).1).map CloseAct.rank) ∧
    (∀ t, c.tls = some t → CloseAct.freeTls t ∈ (client_close (some c)).1) ∧
    (c.sockd ≠ -1 → CloseAct.closeSock c.sockd ∈ (client_close (some c)).1) ∧
    (∀ b, c.buffer = some b →
      CloseAct.freeBuffer b ∈ (client_close (some c)).1) := by
  obtain ⟨sd, tls, st, ip, buf⟩ := c
  rcases tls with _ | t <;> rcases ip with _ | a <;> rcases buf with _ | b <;>
    by_cases hsd : sd ≠ -1 <;>
    simp_all [client_close, CloseAct.rank]

theorem claim4_witness :
    CloseAct.freeTls 3 ∈
      (client_close (some ⟨5, some 3, 1, some 4, some 2⟩)).1 ∧
    CloseAct.closeSock 5 ∈
      (client_close (some ⟨5, some 3, 1, some 4, some 2⟩)).1 ∧
    CloseAct.freeBuffer 2 ∈
      (client_close (some ⟨5, some 3, 1, some 4, some 2⟩)).1 ∧
    client_close (client_close (some ⟨5, some 3, 1, some 4, some 2⟩)).2 =
      ([], none) :=
  ⟨(claim4_close_idempotent_single_release
      ⟨5, some 3, 1, some 4, some 2⟩).2.2.2.2.1 3 rfl,
    (claim4_close_idempotent_single_release
      ⟨5, some 3, 1, some 4, some 2⟩).2.2.2.2.2.1 (by decide),
    (claim4_close_idempotent_single_release
      ⟨5, some 3, 1, some 4, some 2⟩).2.2.2.2.2.2 2 rfl,
    (claim4_close_idempotent_single_release
      ⟨5, some 3, 1, some 4, some 2⟩).2.1⟩

/-- C5: evaluation of `client_connect` on a resolution yielding two
candidates (descriptors 4 and 5) that both refuse the connection: the
call returns no session and frees the resolver's address list, but the
recorded event trace closes descriptor 5 twice — once inside the retry
loop and once again by the post-loop `close(sd)` at line 145 — so the
claim that no socket is closed more than once fails on the code. -/
theorem claim5_double_close_on_exhausted_candidates :
    client_connect [⟨some 4, false, true⟩, ⟨some 5, false, true⟩]
        true true true =
      (none, [ConnEvent.closeSock 4, ConnEvent.closeSock 5,
        ConnEvent.freeAddrInfo, ConnEvent.closeSock 5]) ∧
    ((client_connect [⟨some 4, false, true⟩, ⟨some 5, false, true⟩]
        true true true).2).count (ConnEvent.closeSock 5) = 2 := by
  decide

/-- On a read schedule whose successful lines are all at least 4 bytes
long, the multi-line reader never performs an out-of-bounds access. -/
theorem readEndLoop_defined (ws sts : List Int) :
    ∀ (rs : List ReadEvent) (ln : List Char),
      (∀ r ∈ rs, 0 < r.res → 4 ≤ r.line.length) →
      (readEndLoop ws sts rs ln).isSome
  | [], ln, _ => by simp [readEndLoop]
  | r :: rest, ln, h => by
    by_cases hres : 0 < r.res
    · have hlen : 4 ≤ r.line.length := h r (by simp) hres
      rcases hget : r.line[3]? with _ | c
      · have hnone := List.getElem?_eq_none_iff.mp hget
        omega
      · by_cases hc : c = ' '
        · simp [readEndLoop, hres, hget, hc]
        · simpa [readEndLoop, hres, hget, hc] using
            readEndLoop_defined ws sts rest r.line
              (fun x hx hxr => h x (List.mem_cons_of_mem _ hx) hxr)
    · simp [readEndLoop, hres]

/-- The multi-line reader yields true exactly on schedules that begin
with a (possibly empty) run of successful continuation lines (fourth
byte not a space) followed by a successful line whose fourth byte is a
space. -/
theorem readEndLoop_true_iff (ws sts : List Int) :
    ∀ (rs : List ReadEvent) (ln : List Char),
      (∀ r ∈ rs, 0 < r.res → 4 ≤ r.line.length) →
      ((∃ s', readEndLoop ws sts rs ln = some (true, s')) ↔
        ∃ pre ev post, rs = pre ++ ev :: post ∧
          (∀ x ∈ pre, 0 < x.res ∧ x.line[3]? ≠ some ' ') ∧
          0 < ev.res ∧ ev.line[3]? = some ' ')
  | [], ln, _ => by
    constructor
    · rintro ⟨s', hs⟩
      simp [readEndLoop] at hs
    · rintro ⟨pre, ev, post, hd, -⟩
      exact absurd hd (by simp)
  | r :: rest, ln, h => by
    by_cases hres : 0 < r.res
    · have hlen : 4 ≤ r.line.length := h r (by simp) hres
      rcases hget : r.line[3]? with _ | c
      · have hnone := List.getElem?_eq_none_iff.mp hget
        omega
      · by_cases hc : c = ' '
        · apply iff_of_true
          · exact ⟨⟨rest, ws, sts, r.line⟩, by simp [readEndLoop, hres, hget, hc]⟩
          · exact ⟨[], r, rest, rfl, by simp, hres, by simp [hget, hc]⟩
        · have heq : readEndLoop ws sts (r :: rest) ln =
              readEndLoop ws sts rest r.line := by
            simp [readEndLoop, hres, hget, hc]
          rw [heq]
          refine (readEndLoop_true_iff ws sts rest r.line
            (fun x hx hxr => h x (List.mem_cons_of_mem _ hx) hxr)).trans ?_
          constructor
          · rintro ⟨pre, ev, post, hd, hpre, hev1, hev2⟩
            refine ⟨r :: pre, ev, post, by rw [hd, List.cons_append], ?_, hev1, hev2⟩
            intro x hx
            rcases List.mem_cons.mp hx with hx | hx
            · subst hx
              exact ⟨hres, by simp [hget, hc]⟩
            · exact hpre x hx
          · rintro ⟨pre, ev, post, hd, hpre, hev1, hev2⟩
            cases pre with
            | nil =>
              simp only [List.nil_append] at hd
              obtain ⟨hev, -⟩ := List.cons.inj hd
              subst hev
              rw [hget] at hev2
              exact absurd (Option.some.inj hev2) hc
            | cons p pre' =>
              simp only [List.cons_append] at hd
              obtain ⟨hp, hrest⟩ := List.cons.inj hd
              exact ⟨pre', ev, post, hrest,
                fun x hx => hpre x (List.mem_cons_of_mem _ hx), hev1, hev2⟩
    · apply iff_of_false
      · rintro ⟨s', hs⟩
        simp [readEndLoop, hres] at hs
      · rintro ⟨pre, ev, post, hd, hpre, hev1, hev2⟩
        cases pre with
        | nil =>
          simp only [List.nil_append] at hd
          obtain ⟨hev, -⟩ := List.cons.inj hd
          subst hev
          exact hres hev1
        | cons p pre' =>
          simp only [List.cons_append] at hd
          obtain ⟨hp, -⟩ := List.cons.inj hd
          subst hp
          exact hres (hpre r (by simp)).1

/-- C1: provided every successfully read line carries the three-byte
status code plus delimiter (length at least 4), the multi-line
end-of-response reader terminates with true exactly when the schedule
consists of successful continuation lines (fourth byte not a space)
followed by a successful line whose fourth byte is a space; on every
other schedule — in particular when some read returns a non-positive
result before such a line — it returns false, never success. -/
theorem claim1_read_end_characterization (s : Sess)
    (h : ∀ r ∈ s.reads, 0 < r.res → 4 ≤ r.line.length) :
    (check_smtp_client_read_end s).isSome ∧
    ((∃ s', check_smtp_client_read_end s = some (true, s')) ↔
      ∃ pre ev post, s.reads = pre ++ ev :: post ∧
        (∀ x ∈ pre, 0 < x.res ∧ x.line[3]? ≠ some ' ') ∧
        0 < ev.res ∧ ev.line[3]? = some ' ') :=
  ⟨readEndLoop_defined s.writes s.statuses s.reads s.line h,
    readEndLoop_true_iff s.writes s.statuses s.reads s.line h⟩

theorem claim1_witness :
    (check_smtp_client_read_end ⟨[⟨11, "250-First\r\n".toList⟩,
      ⟨12, "250-Second\r\n".toList⟩, ⟨11, "250 Third\r\n".toList⟩],
      [], [], []⟩).isSome ∧
    ((∃ s', check_smtp_client_read_end ⟨[⟨11, "250-First\r\n".toList⟩,
        ⟨12, "250-Second\r\n".toList⟩, ⟨11, "250 Third\r\n".toList⟩],
        [], [], []⟩ = some (true, s')) ↔
      ∃ pre ev post, ([⟨11, "250-First\r\n".toList⟩,
          ⟨12, "250-Second\r\n".toList⟩,
          ⟨11, "250 Third\r\n".toList⟩] : List ReadEvent) = pre ++ ev :: post ∧
        (∀ x ∈ pre, 0 < x.res ∧ x.line[3]? ≠ some ' ') ∧
        0 < ev.res ∧ ev.line[3]? = some ' ') :=
  claim1_read_end_characterization ⟨[⟨11, "250-First\r\n".toList⟩,
    ⟨12, "250-Second\r\n".toList⟩, ⟨11, "250 Third\r\n".toList⟩],
    [], [], []⟩ (by decide)

/-- C9: the end-of-response test dereferences byte 3 of every
successfully read line with no length guard: whenever every successful
read yields a line of at least 4 bytes the function is well defined, and
on a successful 3-byte line (the bare status code) the unguarded access
is out of bounds. -/
theorem claim9_read_end_index_guard :
    (∀ s : Sess, (∀ r ∈ s.reads, 0 < r.res → 4 ≤ r.line.length) →
      (check_smtp_client_read_end s).isSome) ∧
    check_smtp_client_read_end ⟨[⟨3, "250".toList⟩], [], [], []⟩ = none :=
  ⟨fun s h => readEndLoop_defined s.writes s.statuses s.reads s.line h,
    by decide⟩

theorem claim9_witness :
    (check_smtp_client_read_end
      ⟨[⟨8, "250 OK\r\n".toList⟩], [], [], []⟩).isSome :=
  claim9_read_end_index_guard.1 ⟨[⟨8, "250 OK\r\n".toList⟩], [], [], []⟩
    (by decide)

/-- C6 counterexample: a QUIT exchange whose follow-up read reports an
error (-1, not an orderly shutdown) still succeeds — the driver only
fails when the follow-up read returns a positive byte count — so the
claim that anything other than an orderly shutdown on the follow-up read
makes the step fail is false on the code. -/
theorem claim6_counterexample :
    check_smtp_client_quit ⟨[⟨9, "221 Bye\r\n".toList⟩, ⟨-1, []⟩],
        [6], [1], []⟩ =
      (true, ⟨[], [], [], "221 Bye\r\n".toList⟩, none) := by
  decide


/-- C6 amended: the QUIT step succeeds exactly when the QUIT command is
written in full (6 bytes), one line is read with a positive result,
session status 1 and a 221 prefix, and the follow-up read returns a
non-positive result — the driver does not distinguish an orderly
shutdown (0) from a read error (negative) there; only further readable
bytes (a positive follow-up read) make the step fail. -/
theorem claim6_amended_quit_success_iff (s : Sess) :
    (check_smtp_client_quit s).1 = true ↔
      (s.writes.head?.getD (-1) = 6 ∧
        ∃ r1 rest, s.reads = r1 :: rest ∧ 0 < r1.res ∧
          s.statuses.head?.getD (-1) = 1 ∧
          st_cmp_cs_starts r1.line code221 = 0 ∧
          (rest.head?.getD ⟨0, []⟩).res ≤ 0) := by
  obtain ⟨reads, writes, statuses, ln⟩ := s
  constructor
  · intro h
    rcases writes with _ | ⟨w, ws⟩
    · simp [check_smtp_client_quit, clientWriteOp] at h
    · by_cases hw : w = 6
      · rcases reads with _ | ⟨r1, rest⟩
        · simp [check_smtp_client_quit, clientWriteOp, client_read_line,
            hw] at h
        · by_cases hr : 0 < r1.res
          · rcases statuses with _ | ⟨v, vs⟩
            · simp [check_smtp_client_quit, clientWriteOp, client_read_line,
                clientStatusOp, hw, hr, not_le.mpr hr] at h
            · by_cases hv : v = 1
              · by_cases hcmp : st_cmp_cs_starts r1.line code221 = 0
                · rcases rest with _ | ⟨r2, rest2⟩
                  · exact ⟨by simp [hw], r1, [], rfl, hr, by simp [hv],
                      hcmp, by decide⟩
                  · by_cases hr2 : 0 < r2.res
                    · simp [check_smtp_client_quit, clientWriteOp,
                        client_read_line, clientStatusOp, hw, hr,
                        not_le.mpr hr, hv, hcmp, hr2] at h
                    · exact ⟨by simp [hw], r1, r2 :: rest2, rfl, hr,
                        by simp [hv], hcmp, by simpa using not_lt.mp hr2⟩
                · simp [check_smtp_client_quit, clientWriteOp,
                    client_read_line, clientStatusOp, hw, hr,
                    not_le.mpr hr, hv, hcmp] at h
              · simp [check_smtp_client_quit, clientWriteOp,
                  client_read_line, clientStatusOp, hw, hr,
                  not_le.mpr hr, hv] at h
          · simp [check_smtp_client_quit, clientWriteOp, client_read_line,
              hw, not_lt.mp hr] at h
      · simp [check_smtp_client_quit, clientWriteOp, hw] at h
  · rintro ⟨hw, r1, rest, hreads, hr, hv, hcmp, hr2⟩
    rcases writes with _ | ⟨w, ws⟩
    · simp at hw
    · simp only [List.head?_cons, Option.getD_some] at hw
      rcases statuses with _ | ⟨v, vs⟩
      · simp at hv
      · simp only [List.head?_cons, Option.getD_some] at hv
        subst hreads
        rcases rest with _ | ⟨r2, rest2⟩
        · simp [check_smtp_client_quit, clientWriteOp, client_read_line,
            clientStatusOp, hw, hr, not_le.mpr hr, hv, hcmp]
        · simp only [List.head?_cons, Option.getD_some] at hr2
          simp [check_smtp_client_quit, clientWriteOp, client_read_line,
            clientStatusOp, hw, hr, not_le.mpr hr, hv, hcmp,
            not_lt.mpr hr2]

/-- Read schedule of an auth scenario (AUTH PLAIN) in which connect,
banner, EHLO and both AUTH exchanges behave as expected, and the
unauthenticated-relay step then fails because the server accepts the
message (answers 250 instead of the expected 550). -/
def authFailReads : List ReadEvent :=
  [⟨11, "220 ESMTP x".toList⟩, ⟨5, "250 X".toList⟩, ⟨5, "535 X".toList⟩,
    ⟨5, "235 X".toList⟩, ⟨5, "250 X".toList⟩, ⟨5, "250 X".toList⟩,
    ⟨5, "354 X".toList⟩, ⟨5, "250 X".toList⟩]

/-- Write schedule matching `authFailReads`: every write and print call
transfers exactly the expected byte count. -/
def authFailWrites : List Int := [16, 49, 41, 32, 33, 6, 3]

/-- Status schedule matching `authFailReads`: every status check
reports connected. -/
def authFailStatuses : List Int := [1, 1, 1, 1, 1, 1, 1, 1]

/-- C8: in the authenticated-relay scenario driver, a failure of the
unauthenticated-relay step (the server accepting instead of answering
550) makes the driver return false with nothing recorded in the
caller-supplied errmsg buffer: the `(errmsg = NULL)` assignment at line
255 has nulled the local pointer, so the failure message is printed to a
NULL stringer and never reaches the caller. -/
theorem claim8_relay_failure_records_no_message :
    check_smtp_network_auth_sthread true false
      ⟨authFailReads, authFailWrites, authFailStatuses, []⟩ =
      some (false, none) := by
  decide
